import Mathlib

/-!
Shallow embedding of the `protect-example-file-encryption` upload service
(`src/index.ts`): a single HTTP handler that base64-encodes an uploaded file,
encrypts the base64 text with an external encryption client, stores the
JSON-serialized envelope in an object store under `<name>.encrypted`,
immediately downloads it back, decrypts, base64-decodes, and writes the
reconstructed bytes to `uploads/<name>`, returning a JSON summary.

External collaborators (encryption client, object store, filesystem) are
modelled as an `Oracle` of response behaviors plus an explicit store state;
the handler `runUpload` is a pure function returning the HTTP response and
the trace of external calls it performed.
-/

namespace FileEnc

/-- The standard base64 alphabet used by Node's `Buffer.toString('base64')`. -/
def b64Chars : List Char :=
  "ABCDEFGHIJKLMNOPQRSTUVWXYZabcdefghijklmnopqrstuvwxyz0123456789+/".toList

/-- The base64 character for a 6-bit value. -/
def encChar (n : Nat) : Char := b64Chars.getD n 'A'

/-- The 6-bit value of a base64 character (its index in the alphabet). -/
def decChar (c : Char) : Nat := b64Chars.indexOf c

/-- Base64 encoding of a byte list, as `Buffer.from(bytes).toString('base64')`
produces it: three bytes per four characters, `=`-padded. -/
def base64Encode : List Nat → List Char
  | [] => []
  | [a] => [encChar (a / 4), encChar (a % 4 * 16), '=', '=']
  | [a, b] => [encChar (a / 4), encChar (a % 4 * 16 + b / 16), encChar (b % 16 * 4), '=']
  | a :: b :: c :: rest =>
      encChar (a / 4) :: encChar (a % 4 * 16 + b / 16) ::
        encChar (b % 16 * 4 + c / 64) :: encChar (c % 64) :: base64Encode rest

/-- Base64 decoding, as `Buffer.from(s, 'base64')` behaves on well-formed
input: four characters to three bytes, with `=` padding cutting the final
group short. -/
def base64Decode : List Char → List Nat
  | c1 :: c2 :: c3 :: c4 :: rest =>
      if c3 = '=' then
        [decChar c1 * 4 + decChar c2 / 16]
      else if c4 = '=' then
        [decChar c1 * 4 + decChar c2 / 16, decChar c2 % 16 * 16 + decChar c3 / 4]
      else
        (decChar c1 * 4 + decChar c2 / 16) ::
          (decChar c2 % 16 * 16 + decChar c3 / 4) ::
          (decChar c3 % 4 * 64 + decChar c4) :: base64Decode rest
  | _ => []

theorem decChar_encChar : ∀ i : Fin 64, decChar (encChar i.val) = i.val := by decide

theorem encChar_ne_pad : ∀ i : Fin 64, encChar i.val ≠ '=' := by decide

theorem decChar_encChar_of_lt {n : Nat} (h : n < 64) : decChar (encChar n) = n :=
  decChar_encChar ⟨n, h⟩

theorem encChar_ne_pad_of_lt {n : Nat} (h : n < 64) : encChar n ≠ '=' :=
  encChar_ne_pad ⟨n, h⟩

/-- Decoding inverts encoding on genuine byte lists. -/
theorem base64Decode_base64Encode :
    ∀ l : List Nat, (∀ b ∈ l, b < 256) → base64Decode (base64Encode l) = l := by
  intro l
  induction l using base64Encode.induct with
  | case1 => intro _; rfl
  | case2 a =>
      intro h
      have ha : a < 256 := h a (by simp)
      have h1 : a / 4 < 64 := by omega
      have h2 : a % 4 * 16 < 64 := by omega
      simp only [base64Encode, base64Decode, eq_self_iff_true, if_true,
        decChar_encChar_of_lt h1, decChar_encChar_of_lt h2, List.cons.injEq, and_true]
      omega
  | case3 a b =>
      intro h
      have ha : a < 256 := h a (by simp)
      have hb : b < 256 := h b (by simp)
      have h1 : a / 4 < 64 := by omega
      have h2 : a % 4 * 16 + b / 16 < 64 := by omega
      have h3 : b % 16 * 4 < 64 := by omega
      simp only [base64Encode, base64Decode, if_neg (encChar_ne_pad_of_lt h3),
        eq_self_iff_true, if_true,
        decChar_encChar_of_lt h1, decChar_encChar_of_lt h2, decChar_encChar_of_lt h3,
        List.cons.injEq, and_true]
      exact ⟨by omega, by omega⟩
  | case4 a b c rest ih =>
      intro h
      have ha : a < 256 := h a (by simp)
      have hb : b < 256 := h b (by simp)
      have hc : c < 256 := h c (by simp)
      have h1 : a / 4 < 64 := by omega
      have h2 : a % 4 * 16 + b / 16 < 64 := by omega
      have h3 : b % 16 * 4 + c / 64 < 64 := by omega
      have h4 : c % 64 < 64 := by omega
      have hrest : ∀ x ∈ rest, x < 256 := by
        intro x hx; exact h x (by simp [hx])
      simp only [base64Encode, base64Decode, if_neg (encChar_ne_pad_of_lt h3),
        if_neg (encChar_ne_pad_of_lt h4),
        decChar_encChar_of_lt h1, decChar_encChar_of_lt h2,
        decChar_encChar_of_lt h3, decChar_encChar_of_lt h4, List.cons.injEq]
      exact ⟨by omega, by omega, by omega, ih hrest⟩

/-- A file received in the multipart form data: declared name, declared MIME
type, and raw byte content (`file.size` is the content's byte length). -/
structure FileData where
  name : String
  type : String
  content : List Nat
deriving DecidableEq, Repr

/-- A value bound to the `file` form field: `formData.get('file')` yields a
string or a `File`; absence is modelled by `Option`. -/
inductive FormValue where
  | str : String → FormValue
  | file : FileData → FormValue
deriving DecidableEq, Repr

/-- The JSON body of an HTTP response produced by the handler. -/
inductive RespBody where
  | errorMsg : String → RespBody
  | errorDetails : String → String → RespBody
  | success : String → String → String → Nat → RespBody
deriving DecidableEq, Repr

/-- An HTTP response: status code plus JSON body. -/
structure Response where
  status : Nat
  body : RespBody
deriving DecidableEq, Repr

/-- Behavior of the external collaborators during one request, over an
abstract envelope type `E`:
`initErr` — an exception thrown by `protect({schemas})` (caught at top level);
`encrypt` — `protectClient.encrypt`, `none` when the result carries `failure`;
`stringify` — `JSON.stringify` of the envelope `encrypted.data`;
`parse` — `JSON.parse` of downloaded text, `Except.error` when it throws;
`decrypt` — `protectClient.decrypt`, `none` when the result carries `failure`;
`uploadErr` — the `error` field of the supabase upload result (never checked
by the handler; when present the store is left unchanged);
`downloadFails` — the supabase download returns `data: null`;
`writeErr` — an exception thrown by `writeFile` (e.g. `uploads/` missing). -/
structure Oracle (E : Type) where
  initErr : Option String
  encrypt : String → Option E
  stringify : E → String
  parse : String → Except String E
  decrypt : E → Option String
  uploadErr : Option String
  downloadFails : Bool
  writeErr : Option String

/-- One call made to an external collaborator, in order of occurrence. -/
inductive Event (E : Type) where
  | protectInit : Event E
  | encryptCall : String → Event E
  | storeUpload : String → String → String → Event E
  | storeDownload : String → Event E
  | decryptCall : E → Event E
  | fsWrite : String → List Nat → Event E
  | mkdir : String → Event E
deriving DecidableEq, Repr

/-- The `POST /upload` handler of `src/index.ts`, as a pure function of the
oracle `o`, the object-store state `σ` (key to stored body), and the value of
the `file` form field. Returns the HTTP response and the trace of external
calls. Mirrors the source order: `protect()` init, form-field check,
base64-encode, encrypt, store upload under `<name>.encrypted` (its error
result unused), immediate download of the same key, `JSON.parse`, decrypt,
base64-decode, `writeFile` to `uploads/<name>` (no directory creation),
success JSON with the file's name, type and size. -/
def runUpload {E : Type} (o : Oracle E) (σ : String → Option String)
    (form : Option FormValue) : Response × List (Event E) :=
  match o.initErr with
  | some msg => (⟨500, .errorDetails "Failed to upload file" msg⟩, [.protectInit])
  | none =>
    match form with
    | some (FormValue.file f) =>
      let base64String := String.mk (base64Encode f.content)
      match o.encrypt base64String with
      | none =>
          (⟨500, .errorMsg "Failed to encrypt file"⟩,
           [.protectInit, .encryptCall base64String])
      | some e =>
          let body := o.stringify e
          let key := f.name ++ ".encrypted"
          let σ1 : String → Option String :=
            match o.uploadErr with
            | some _ => σ
            | none => fun k => if k = key then some body else σ k
          let evs : List (Event E) :=
            [.protectInit, .encryptCall base64String,
             .storeUpload key "application/json" body, .storeDownload key]
          match (if o.downloadFails then none else σ1 key) with
          | none => (⟨500, .errorMsg "Failed to download file"⟩, evs)
          | some text =>
            match o.parse text with
            | Except.error msg =>
                (⟨500, .errorDetails "Failed to upload file" msg⟩, evs)
            | Except.ok j =>
              match o.decrypt j with
              | none =>
                  (⟨500, .errorMsg "Failed to decrypt file"⟩,
                   evs ++ [.decryptCall j])
              | some s =>
                  let bytes := base64Decode s.toList
                  let path := "uploads/" ++ f.name
                  match o.writeErr with
                  | some msg =>
                      (⟨500, .errorDetails "Failed to upload file" msg⟩,
                       evs ++ [.decryptCall j])
                  | none =>
                      (⟨200, .success "File uploaded successfully"
                          f.name f.type f.content.length⟩,
                       evs ++ [.decryptCall j, .fsWrite path bytes])
    | _ => (⟨400, .errorMsg "No file provided or invalid file format"⟩, [.protectInit])

/-- C3: if the form data has no `file` field, or the `file` field is bound to
a non-file value, the response is 400 with the bad-input message, and no
encrypt, decrypt, store-upload or store-download call is made (the trace holds
only the encryption client's initialization, which precedes the check in the
source but performs none of the collaborators' operations). -/
theorem badInput_400_noExternalCalls {E : Type} (o : Oracle E)
    (σ : String → Option String) (form : Option FormValue)
    (hinit : o.initErr = none)
    (hform : form = none ∨ ∃ s, form = some (FormValue.str s)) :
    runUpload o σ form =
      (⟨400, RespBody.errorMsg "No file provided or invalid file format"⟩,
       [Event.protectInit]) ∧
    (∀ p, Event.encryptCall p ∉ (runUpload o σ form).2) ∧
    (∀ k c b, Event.storeUpload k c b ∉ (runUpload o σ form).2) ∧
    (∀ k, Event.storeDownload k ∉ (runUpload o σ form).2) ∧
    (∀ j, Event.decryptCall j ∉ (runUpload o σ form).2) := by
  have hrun : runUpload o σ form =
      (⟨400, RespBody.errorMsg "No file provided or invalid file format"⟩,
       [Event.protectInit]) := by
    rcases hform with h | ⟨s, h⟩ <;> subst h <;> simp [runUpload, hinit]
  refine ⟨hrun, ?_, ?_, ?_, ?_⟩ <;> simp [hrun]

/-- C3 witness at a concrete request with no `file` field. -/
theorem badInput_400_noExternalCalls_witness :
    runUpload (E := Unit)
      ⟨none, fun _ => none, fun _ => "", fun _ => Except.error "", fun _ => none,
       none, false, none⟩ (fun _ => none) none =
      (⟨400, RespBody.errorMsg "No file provided or invalid file format"⟩,
       [Event.protectInit]) :=
  (badInput_400_noExternalCalls _ _ _ rfl (Or.inl rfl)).1

/-- C4: if the encryption client reports failure, the response is 500 with the
encryption-failure message, and no store upload, store download, decrypt or
filesystem write happens. -/
theorem encryptFailure_500_noUpload {E : Type} (o : Oracle E)
    (σ : String → Option String) (f : FileData)
    (hinit : o.initErr = none)
    (henc : o.encrypt (String.mk (base64Encode f.content)) = none) :
    runUpload o σ (some (FormValue.file f)) =
      (⟨500, RespBody.errorMsg "Failed to encrypt file"⟩,
       [Event.protectInit, Event.encryptCall (String.mk (base64Encode f.content))]) ∧
    (∀ k c b, Event.storeUpload k c b ∉ (runUpload o σ (some (FormValue.file f))).2) ∧
    (∀ k, Event.storeDownload k ∉ (runUpload o σ (some (FormValue.file f))).2) ∧
    (∀ j, Event.decryptCall j ∉ (runUpload o σ (some (FormValue.file f))).2) ∧
    (∀ p b, Event.fsWrite p b ∉ (runUpload o σ (some (FormValue.file f))).2) := by
  have hrun : runUpload o σ (some (FormValue.file f)) =
      (⟨500, RespBody.errorMsg "Failed to encrypt file"⟩,
       [Event.protectInit, Event.encryptCall (String.mk (base64Encode f.content))]) := by
    simp [runUpload, hinit, henc]
  refine ⟨hrun, ?_, ?_, ?_, ?_⟩ <;> simp [hrun]

/-- C4 witness: a concrete request whose encryption fails. -/
theorem encryptFailure_500_noUpload_witness :
    runUpload (E := Unit)
      ⟨none, fun _ => none, fun _ => "", fun _ => Except.error "", fun _ => none,
       none, false, none⟩ (fun _ => none)
      (some (FormValue.file ⟨"a.txt", "text/plain", [104, 105]⟩)) =
      (⟨500, RespBody.errorMsg "Failed to encrypt file"⟩,
       [Event.protectInit,
        Event.encryptCall (String.mk (base64Encode [104, 105]))]) :=
  (encryptFailure_500_noUpload _ _ _ rfl rfl).1

/-- A store with no objects, for concrete instantiations. -/
def emptyStore : String → Option String := fun _ => none

/-- A concrete uploaded file: `a.txt`, `text/plain`, bytes of `"hi"`. -/
def demoFile : FileData := ⟨"a.txt", "text/plain", [104, 105]⟩

/-- Collaborators that always succeed, with the envelope being the payload
itself and JSON serialization the identity, for concrete instantiations. -/
def idOracle : Oracle String where
  initErr := none
  encrypt := fun s => some s
  stringify := fun e => e
  parse := fun s => Except.ok s
  decrypt := fun e => some e
  uploadErr := none
  downloadFails := false
  writeErr := none

/-- C5: when the object-store upload returns an error, the handler does not
abort: the upload call is followed unconditionally by the download call on the
same key, and only that download can surface the failure — if it finds no
object (store unchanged by the failed write), the response is the
download-failure 500, not an upload-failure one. -/
theorem uploadError_notChecked {E : Type} (o : Oracle E)
    (σ : String → Option String) (f : FileData) (e : E) (err : String)
    (hinit : o.initErr = none)
    (henc : o.encrypt (String.mk (base64Encode f.content)) = some e)
    (hup : o.uploadErr = some err) :
    Event.storeUpload (f.name ++ ".encrypted") "application/json" (o.stringify e) ∈
      (runUpload o σ (some (FormValue.file f))).2 ∧
    Event.storeDownload (f.name ++ ".encrypted") ∈
      (runUpload o σ (some (FormValue.file f))).2 ∧
    (o.downloadFails = false → σ (f.name ++ ".encrypted") = none →
      (runUpload o σ (some (FormValue.file f))).1 =
        ⟨500, RespBody.errorMsg "Failed to download file"⟩) := by
  refine ⟨?_, ?_, ?_⟩
  · simp only [runUpload, hinit, henc, hup]
    repeat' split
    all_goals simp
  · simp only [runUpload, hinit, henc, hup]
    repeat' split
    all_goals simp
  · intro hdl hσ
    simp [runUpload, hinit, henc, hup, hdl, hσ]

/-- C5 witness: a concrete failed store write, silently ignored, surfacing
only as the download failure. -/
theorem uploadError_notChecked_witness :
    Event.storeUpload ("a.txt" ++ ".encrypted") "application/json"
        ((Oracle.mk (E := String) none (fun s => some s) (fun e => e)
          (fun s => Except.ok s) (fun e => some e) (some "boom") false
          none).stringify (String.mk (base64Encode demoFile.content))) ∈
      (runUpload (Oracle.mk (E := String) none (fun s => some s) (fun e => e)
          (fun s => Except.ok s) (fun e => some e) (some "boom") false none)
        emptyStore (some (FormValue.file demoFile))).2 ∧
    Event.storeDownload ("a.txt" ++ ".encrypted") ∈
      (runUpload (Oracle.mk (E := String) none (fun s => some s) (fun e => e)
          (fun s => Except.ok s) (fun e => some e) (some "boom") false none)
        emptyStore (some (FormValue.file demoFile))).2 ∧
    (false = false → emptyStore ("a.txt" ++ ".encrypted") = none →
      (runUpload (Oracle.mk (E := String) none (fun s => some s) (fun e => e)
          (fun s => Except.ok s) (fun e => some e) (some "boom") false none)
        emptyStore (some (FormValue.file demoFile))).1 =
        ⟨500, RespBody.errorMsg "Failed to download file"⟩) :=
  uploadError_notChecked _ emptyStore demoFile _ "boom" rfl rfl rfl

/-- C6: when the download returns no object for `<name>.encrypted` (either
the store read fails, or the earlier write failed and the key is absent), the
response is 500 with the download-failure message, and no decrypt call and no
filesystem write occur. -/
theorem downloadFailure_500_noDecrypt {E : Type} (o : Oracle E)
    (σ : String → Option String) (f : FileData) (e : E)
    (hinit : o.initErr = none)
    (henc : o.encrypt (String.mk (base64Encode f.content)) = some e)
    (hdown : o.downloadFails = true ∨
      (∃ err, o.uploadErr = some err) ∧ σ (f.name ++ ".encrypted") = none) :
    runUpload o σ (some (FormValue.file f)) =
      (⟨500, RespBody.errorMsg "Failed to download file"⟩,
       [Event.protectInit, Event.encryptCall (String.mk (base64Encode f.content)),
        Event.storeUpload (f.name ++ ".encrypted") "application/json" (o.stringify e),
        Event.storeDownload (f.name ++ ".encrypted")]) ∧
    (∀ j, Event.decryptCall j ∉ (runUpload o σ (some (FormValue.file f))).2) ∧
    (∀ p b, Event.fsWrite p b ∉ (runUpload o σ (some (FormValue.file f))).2) := by
  have hrun : runUpload o σ (some (FormValue.file f)) =
      (⟨500, RespBody.errorMsg "Failed to download file"⟩,
       [Event.protectInit, Event.encryptCall (String.mk (base64Encode f.content)),
        Event.storeUpload (f.name ++ ".encrypted") "application/json" (o.stringify e),
        Event.storeDownload (f.name ++ ".encrypted")]) := by
    rcases hdown with hdl | ⟨⟨err, hup⟩, hσ⟩
    · simp [runUpload, hinit, henc, hdl]
    · simp [runUpload, hinit, henc, hup, hσ]
  refine ⟨hrun, ?_, ?_⟩ <;> simp [hrun]

/-- C6 witness: a concrete simulated store outage on download. -/
theorem downloadFailure_500_noDecrypt_witness :
    runUpload (Oracle.mk (E := String) none (fun s => some s) (fun e => e)
        (fun s => Except.ok s) (fun e => some e) none true none)
      emptyStore (some (FormValue.file demoFile)) =
      (⟨500, RespBody.errorMsg "Failed to download file"⟩,
       [Event.protectInit, Event.encryptCall (String.mk (base64Encode demoFile.content)),
        Event.storeUpload (demoFile.name ++ ".encrypted") "application/json"
          (String.mk (base64Encode demoFile.content)),
        Event.storeDownload (demoFile.name ++ ".encrypted")]) :=
  (downloadFailure_500_noDecrypt _ emptyStore demoFile _ rfl rfl (Or.inl rfl)).1

/-- C7: when the decrypt operation reports failure on the downloaded
envelope, the response is 500 with the decryption-failure message and no
filesystem write occurs. -/
theorem decryptFailure_500_noWrite {E : Type} (o : Oracle E)
    (σ : String → Option String) (f : FileData) (e : E) (j : E)
    (hinit : o.initErr = none)
    (henc : o.encrypt (String.mk (base64Encode f.content)) = some e)
    (hup : o.uploadErr = none)
    (hdl : o.downloadFails = false)
    (hparse : o.parse (o.stringify e) = Except.ok j)
    (hdec : o.decrypt j = none) :
    runUpload o σ (some (FormValue.file f)) =
      (⟨500, RespBody.errorMsg "Failed to decrypt file"⟩,
       [Event.protectInit, Event.encryptCall (String.mk (base64Encode f.content)),
        Event.storeUpload (f.name ++ ".encrypted") "application/json" (o.stringify e),
        Event.storeDownload (f.name ++ ".encrypted"), Event.decryptCall j]) ∧
    (∀ p b, Event.fsWrite p b ∉ (runUpload o σ (some (FormValue.file f))).2) := by
  have hrun : runUpload o σ (some (FormValue.file f)) =
      (⟨500, RespBody.errorMsg "Failed to decrypt file"⟩,
       [Event.protectInit, Event.encryptCall (String.mk (base64Encode f.content)),
        Event.storeUpload (f.name ++ ".encrypted") "application/json" (o.stringify e),
        Event.storeDownload (f.name ++ ".encrypted"), Event.decryptCall j]) := by
    simp [runUpload, hinit, henc, hup, hdl, hparse, hdec]
  exact ⟨hrun, by simp [hrun]⟩

/-- C7 witness: a concrete decryption failure on a stored envelope. -/
theorem decryptFailure_500_noWrite_witness :
    runUpload (Oracle.mk (E := String) none (fun s => some s) (fun e => e)
        (fun s => Except.ok s) (fun _ => none) none false none)
      emptyStore (some (FormValue.file demoFile)) =
      (⟨500, RespBody.errorMsg "Failed to decrypt file"⟩,
       [Event.protectInit, Event.encryptCall (String.mk (base64Encode demoFile.content)),
        Event.storeUpload (demoFile.name ++ ".encrypted") "application/json"
          (String.mk (base64Encode demoFile.content)),
        Event.storeDownload (demoFile.name ++ ".encrypted"),
        Event.decryptCall (String.mk (base64Encode demoFile.content))]) :=
  (decryptFailure_500_noWrite _ emptyStore demoFile _ _ rfl rfl rfl rfl rfl rfl).1

/-- C8: when all six steps succeed, the response is 200 with body
`{ message: "File uploaded successfully", file: { name, type, size } }`,
where name, type and size are the uploaded file's declared filename, declared
MIME type and byte length; the body carries no file content. -/
theorem success_200_summary {E : Type} (o : Oracle E)
    (σ : String → Option String) (f : FileData) (e : E) (j : E) (s : String)
    (hinit : o.initErr = none)
    (henc : o.encrypt (String.mk (base64Encode f.content)) = some e)
    (hup : o.uploadErr = none)
    (hdl : o.downloadFails = false)
    (hparse : o.parse (o.stringify e) = Except.ok j)
    (hdec : o.decrypt j = some s)
    (hw : o.writeErr = none) :
    (runUpload o σ (some (FormValue.file f))).1 =
      ⟨200, RespBody.success "File uploaded successfully"
        f.name f.type f.content.length⟩ := by
  simp [runUpload, hinit, henc, hup, hdl, hparse, hdec, hw]

/-- C8 witness: a concrete fully successful upload of a 2-byte `a.txt`. -/
theorem success_200_summary_witness :
    (runUpload idOracle emptyStore (some (FormValue.file demoFile))).1 =
      ⟨200, RespBody.success "File uploaded successfully"
        demoFile.name demoFile.type demoFile.content.length⟩ :=
  success_200_summary idOracle emptyStore demoFile
    (String.mk (base64Encode demoFile.content))
    (String.mk (base64Encode demoFile.content))
    (String.mk (base64Encode demoFile.content))
    rfl rfl rfl rfl rfl rfl rfl

/-- Either the request succeeded with a 200 status, or no filesystem write
appears in its trace: the write is exclusive to the full success branch. -/
theorem status200_or_noWrite {E : Type} (o : Oracle E) (σ : String → Option String)
    (form : Option FormValue) :
    (runUpload o σ form).1.status = 200 ∨
      ∀ p b, Event.fsWrite p b ∉ (runUpload o σ form).2 := by
  cases hi : o.initErr with
  | some m => right; simp [runUpload, hi]
  | none =>
    rcases form with _ | (s | f)
    · right; simp [runUpload, hi]
    · right; simp [runUpload, hi]
    · cases he : o.encrypt (String.mk (base64Encode f.content)) with
      | none => right; simp [runUpload, hi, he]
      | some e =>
        simp only [runUpload, hi, he]
        repeat' split
        all_goals first
          | (left; rfl)
          | (right; intro p b hmem; simp at hmem)

/-- The handler never issues a directory-creation call, on any input. -/
theorem mkdir_never_called {E : Type} (o : Oracle E) (σ : String → Option String)
    (form : Option FormValue) (p : String) :
    Event.mkdir p ∉ (runUpload o σ form).2 := by
  cases hi : o.initErr with
  | some m => simp [runUpload, hi]
  | none =>
    rcases form with _ | (s | f)
    · simp [runUpload, hi]
    · simp [runUpload, hi]
    · cases he : o.encrypt (String.mk (base64Encode f.content)) with
      | none => simp [runUpload, hi, he]
      | some e =>
        simp only [runUpload, hi, he]
        repeat' split
        all_goals intro hmem
        all_goals simp at hmem

/-- C9: every request ending in a non-200 response performs no local
filesystem write — the `uploads/<name>` write happens only in the full
success branch. -/
theorem non200_noLocalWrite {E : Type} (o : Oracle E)
    (σ : String → Option String) (form : Option FormValue)
    (h : (runUpload o σ form).1.status ≠ 200) :
    ∀ p b, Event.fsWrite p b ∉ (runUpload o σ form).2 :=
  fun p b hmem => ((status200_or_noWrite o σ form).resolve_left h) p b hmem

/-- C9 witness: a concrete 400 request writes nothing. -/
theorem non200_noLocalWrite_witness :
    (400 : Nat) ≠ 200 ∧
    Event.fsWrite "uploads/a.txt" [104, 105] ∉
      (runUpload (E := Unit)
        ⟨none, fun _ => none, fun _ => "", fun _ => Except.error "", fun _ => none,
         none, false, none⟩ (fun _ => none) none).2 :=
  ⟨by decide,
   non200_noLocalWrite
     ⟨none, fun _ => none, fun _ => "", fun _ => Except.error "", fun _ => none,
      none, false, none⟩ (fun _ => none) none (by decide) "uploads/a.txt" [104, 105]⟩

/-- C2: any value handed to the object store comes from a request whose
`file` field held a file `f`, is keyed `<f.name>.encrypted` with content-type
`application/json`, and its body is exactly the JSON serialization of the
envelope the encryption client returned for `f`'s base64 content — never the
plaintext bytes. -/
theorem storeUpload_only_envelope {E : Type} (o : Oracle E)
    (σ : String → Option String) (form : Option FormValue)
    (k ct b : String)
    (hmem : Event.storeUpload k ct b ∈ (runUpload o σ form).2) :
    ∃ f e, form = some (FormValue.file f) ∧ k = f.name ++ ".encrypted" ∧
      ct = "application/json" ∧
      o.encrypt (String.mk (base64Encode f.content)) = some e ∧
      b = o.stringify e := by
  cases hi : o.initErr with
  | some m => simp [runUpload, hi] at hmem
  | none =>
    rcases form with _ | (s | f)
    · simp [runUpload, hi] at hmem
    · simp [runUpload, hi] at hmem
    · cases he : o.encrypt (String.mk (base64Encode f.content)) with
      | none => simp [runUpload, hi, he] at hmem
      | some e =>
        refine ⟨f, e, rfl, ?_⟩
        simp only [runUpload, hi, he] at hmem
        repeat' split at hmem
        all_goals simp at hmem
        all_goals exact ⟨hmem.1, hmem.2.1, he, hmem.2.2⟩

/-- C2 witness: the one store write of a concrete successful upload is the
envelope JSON under `a.txt.encrypted`. -/
theorem storeUpload_only_envelope_witness :
    ∃ f e, (some (FormValue.file demoFile) : Option FormValue) =
        some (FormValue.file f) ∧
      demoFile.name ++ ".encrypted" = f.name ++ ".encrypted" ∧
      ("application/json" : String) = "application/json" ∧
      idOracle.encrypt (String.mk (base64Encode f.content)) = some e ∧
      String.mk (base64Encode demoFile.content) = idOracle.stringify e :=
  storeUpload_only_envelope idOracle emptyStore (some (FormValue.file demoFile))
    (demoFile.name ++ ".encrypted") "application/json"
    (String.mk (base64Encode demoFile.content)) (by decide)

/-- C10: the handler never creates the `uploads` output directory (no
directory-creation call appears in any trace, despite the source comment);
when the filesystem write throws — e.g. the directory is missing — after
encrypt, store upload, download and decrypt all succeeded, the exception
falls to the top-level catch and the response is 500 with
`{ error: 'Failed to upload file', details }`. -/
theorem noMkdir_writeFailure_caught :
    (∀ (E : Type) (o : Oracle E) (σ : String → Option String)
        (form : Option FormValue) (p : String),
      Event.mkdir p ∉ (runUpload o σ form).2) ∧
    (∀ (E : Type) (o : Oracle E) (σ : String → Option String) (f : FileData)
        (e j : E) (s msg : String),
      o.initErr = none →
      o.encrypt (String.mk (base64Encode f.content)) = some e →
      o.uploadErr = none → o.downloadFails = false →
      o.parse (o.stringify e) = Except.ok j → o.decrypt j = some s →
      o.writeErr = some msg →
      runUpload o σ (some (FormValue.file f)) =
        (⟨500, RespBody.errorDetails "Failed to upload file" msg⟩,
         [Event.protectInit, Event.encryptCall (String.mk (base64Encode f.content)),
          Event.storeUpload (f.name ++ ".encrypted") "application/json" (o.stringify e),
          Event.storeDownload (f.name ++ ".encrypted"), Event.decryptCall j])) := by
  constructor
  · exact fun E o σ form p => mkdir_never_called o σ form p
  · intro E o σ f e j s msg hi he hup hdl hp hd hw
    simp [runUpload, hi, he, hup, hdl, hp, hd, hw]

/-- C10 witness: a concrete missing-directory write failure after four
successful external steps, and no directory creation anywhere. -/
theorem noMkdir_writeFailure_caught_witness :
    Event.mkdir "uploads" ∉
      (runUpload idOracle emptyStore (some (FormValue.file demoFile))).2 ∧
    runUpload (Oracle.mk (E := String) none (fun s => some s) (fun e => e)
        (fun s => Except.ok s) (fun e => some e) none false (some "ENOENT"))
      emptyStore (some (FormValue.file demoFile)) =
      (⟨500, RespBody.errorDetails "Failed to upload file" "ENOENT"⟩,
       [Event.protectInit,
        Event.encryptCall (String.mk (base64Encode demoFile.content)),
        Event.storeUpload (demoFile.name ++ ".encrypted") "application/json"
          (String.mk (base64Encode demoFile.content)),
        Event.storeDownload (demoFile.name ++ ".encrypted"),
        Event.decryptCall (String.mk (base64Encode demoFile.content))]) :=
  ⟨noMkdir_writeFailure_caught.1 String idOracle emptyStore
      (some (FormValue.file demoFile)) "uploads",
   noMkdir_writeFailure_caught.2 String
     (Oracle.mk (E := String) none (fun s => some s) (fun e => e)
        (fun s => Except.ok s) (fun e => some e) none false (some "ENOENT"))
     emptyStore demoFile (String.mk (base64Encode demoFile.content))
     (String.mk (base64Encode demoFile.content))
     (String.mk (base64Encode demoFile.content)) "ENOENT"
     rfl rfl rfl rfl rfl rfl rfl⟩

/-- C1: for a request that completes with a 200 response — with the store
write taking effect, JSON parse inverting the envelope's serialization, and
the encryption client satisfying `decrypt (encrypt x) = x` — the file written
to `uploads/<name>` holds exactly the original uploaded bytes: base64-encode,
encrypt, store, retrieve, decrypt, base64-decode is the identity on the
payload. -/
theorem roundTrip_writes_original_bytes {E : Type} (o : Oracle E)
    (σ : String → Option String) (f : FileData)
    (hwf : ∀ b ∈ f.content, b < 256)
    (hup : o.uploadErr = none)
    (hparse : ∀ s e, o.encrypt s = some e → o.parse (o.stringify e) = Except.ok e)
    (hdec : ∀ s e, o.encrypt s = some e → o.decrypt e = some s)
    (h200 : (runUpload o σ (some (FormValue.file f))).1.status = 200) :
    Event.fsWrite ("uploads/" ++ f.name) f.content ∈
      (runUpload o σ (some (FormValue.file f))).2 ∧
    ∀ p b, Event.fsWrite p b ∈ (runUpload o σ (some (FormValue.file f))).2 →
      p = "uploads/" ++ f.name ∧ b = f.content := by
  have hb64 : base64Decode (base64Encode f.content) = f.content :=
    base64Decode_base64Encode f.content hwf
  cases hi : o.initErr with
  | some m => simp [runUpload, hi] at h200
  | none =>
    cases he : o.encrypt (String.mk (base64Encode f.content)) with
    | none => simp [runUpload, hi, he] at h200
    | some e =>
      cases hdlf : o.downloadFails with
      | true => simp [runUpload, hi, he, hup, hdlf] at h200
      | false =>
        have hp := hparse _ e he
        have hd := hdec _ e he
        cases hw : o.writeErr with
        | some m => simp [runUpload, hi, he, hup, hdlf, hp, hd, hw] at h200
        | none =>
          have hts : (String.mk (base64Encode f.content)).toList =
              base64Encode f.content := rfl
          have hrun : runUpload o σ (some (FormValue.file f)) =
              (⟨200, RespBody.success "File uploaded successfully"
                  f.name f.type f.content.length⟩,
               [Event.protectInit,
                Event.encryptCall (String.mk (base64Encode f.content)),
                Event.storeUpload (f.name ++ ".encrypted") "application/json"
                  (o.stringify e),
                Event.storeDownload (f.name ++ ".encrypted"),
                Event.decryptCall e,
                Event.fsWrite ("uploads/" ++ f.name) f.content]) := by
            simp [runUpload, hi, he, hup, hdlf, hp, hd, hw, hts, hb64]
          constructor
          · simp [hrun]
          · intro p b hmem
            simp [hrun] at hmem
            exact hmem

/-- C1 witness: a concrete 200 upload of the bytes of `"hi"` writes exactly
those bytes back to `uploads/a.txt`. -/
theorem roundTrip_writes_original_bytes_witness :
    Event.fsWrite ("uploads/" ++ demoFile.name) demoFile.content ∈
      (runUpload idOracle emptyStore (some (FormValue.file demoFile))).2 :=
  (roundTrip_writes_original_bytes idOracle emptyStore demoFile
    (by decide) rfl
    (fun s e h => by cases h; rfl)
    (fun s e h => by cases h; rfl)
    rfl).1

end FileEnc
